import Mathlib

/-!
Verification of the alert ingestion, deduplication and classification
pipeline of the Unified-alert-dashboard repository.

The definitions below are shallow embeddings of the JavaScript/TypeScript
source:
  * `JValue`, `extractField`, `normalizeAlert`, `webhookStatus` embed the
    flexible field extraction and normalization of
    `oci-alert-backend/routes/oci.js` (webhook router).
  * `Store`, `addNewAlert`, `updateExistingAlert`, `prune`, `handleAlert`
    embed the in-memory deduplication store of the same file.
  * `processAlerts` and friends embed the client-side classifier/filter of
    `alert-frontend/src/lib/alertUtils.ts`.
  * `convertToAlerts` embeds the heartbeat interpreter of
    `alert-frontend/src/lib/heartbeatService.ts`.

Modelling conventions: machine timestamps are epoch milliseconds as `Nat`
(the JS code stores ISO strings whose ordering agrees with the epoch
value); JS `Set`/`Map` are association lists with set/map semantics;
exceptions are `Except`.
-/

namespace UnifiedAlertDashboard


/-- A parsed JSON value, as delivered to the webhook endpoint by the JSON
body parser.  An absent object property is modelled by `getProp` returning
`none` (JS `undefined`). -/
inductive JValue where
  | jnull
  | jbool (b : Bool)
  | jnum (n : Int)
  | jstr (s : String)
  | jarr (elems : List JValue)
  | jobj (fields : List (String × JValue))
  deriving Repr

/-- Property access `obj[name]` on a JSON value; only objects have
properties, everything else yields `undefined` (`none`).  Parsed JSON
objects have unique keys, so first-match lookup is exact. -/
def getProp (obj : JValue) (name : String) : Option JValue :=
  match obj with
  | .jobj fields => fields.lookup name
  | _ => none

/-- The test `obj[name] !== undefined && obj[name] !== null && obj[name] !== ''`
from `extractField` in routes/oci.js, applied to a present value
(`undefined` is handled by `getProp` returning `none`). -/
def keptValue : JValue → Bool
  | .jnull => false
  | .jstr s => !(s == "")
  | _ => true

/-- `extractField(obj, possibleNames, defaultValue)` from routes/oci.js:
return the first candidate property that is present, non-null,
non-undefined and not the empty string; otherwise the default. -/
def extractField (obj : JValue) (possibleNames : List String) (defaultValue : JValue) : JValue :=
  match possibleNames with
  | [] => defaultValue
  | name :: rest =>
    match getProp obj name with
    | some v => if keptValue v then v else extractField obj rest defaultValue
    | none => extractField obj rest defaultValue

/-- `true` when candidate key `name` would be accepted by `extractField`:
present on `obj` with a non-null, non-undefined, non-empty-string value. -/
def keptAt (obj : JValue) (name : String) : Bool :=
  match getProp obj name with
  | some v => keptValue v
  | none => false

/-- The value actually stored under `name`, or the default when the claim
talks about the fallback case. -/
def propOr (obj : JValue) (name : String) (defaultValue : JValue) : JValue :=
  match getProp obj name with
  | some v => v
  | none => defaultValue

/-! ## The in-memory deduplication store (routes/oci.js) -/

/-- The canonical alert record built by the webhook normalizer
(`alertData` in routes/oci.js).  The remaining `alertData` fields
(tenant, region, threshold, …) are all plain data handled identically to
the ones kept here by the object spread in `updateExistingAlert`. -/
structure Alert where
  id : String
  severity : String
  message : String
  vm : String
  /-- Event time, modelled as epoch milliseconds. -/
  timestamp : Nat
  dedupeKey : String
  /-- `lastUpdated` is only ever written by `updateExistingAlert`. -/
  lastUpdated : Option Nat
  deriving Repr, DecidableEq

/-- `MAX_ALERTS` in routes/oci.js. -/
def MAX_ALERTS : Nat := 10000

/-- Six hours in milliseconds, the staleness window of the periodic
dedupe-key cleanup (`6 * 60 * 60 * 1000`). -/
def SIX_HOURS_MS : Nat := 21600000

/-- The module-level mutable state of routes/oci.js: the retained alert
collection `alertMemory` (newest first), the `dedupeKeys` JS `Set`
(modelled as a duplicate-free list) and the `alertDedupeMap` JS `Map`
(association list, unique keys, insertion order preserved). -/
structure Store where
  alertMemory : List Alert
  dedupeKeys : List String
  alertDedupeMap : List (String × Alert)
  deriving Repr, DecidableEq

/-- The initial (and daily-reset) state: all collections empty. -/
def store0 : Store := ⟨[], [], []⟩

/-- `isDuplicateAlert(dedupeKey)`: membership test in the `dedupeKeys` set. -/
def isDuplicateAlert (dedupeKey : String) (s : Store) : Bool :=
  decide (dedupeKey ∈ s.dedupeKeys)

/-- The object-spread update in `updateExistingAlert`:
`{...existing, ...newAlertData, dedupeKey, lastUpdated: now}`.
`newAlertData` (the route's `alertData`) defines every alert field except
`lastUpdated`, so every stored field is overwritten by the incoming one;
`dedupeKey` and `lastUpdated` are then set explicitly. -/
def mergeAlert (newAlertData : Alert) (dedupeKey : String) (now : Nat) : Alert :=
  { newAlertData with dedupeKey := dedupeKey, lastUpdated := some now }

/-- `updateExistingAlert(dedupeKey, newAlertData)`: locate the stored alert
by dedupe key and replace it in place.  Note the source mutates only
`alertMemory`; `alertDedupeMap` keeps its insertion-time entry. -/
def updateExistingAlert (dedupeKey : String) (newAlertData : Alert) (now : Nat)
    (s : Store) : Bool × Store :=
  match s.alertMemory.findIdx? (fun alert => alert.dedupeKey == dedupeKey) with
  | some existingIndex =>
    (true,
      { s with alertMemory :=
          s.alertMemory.set existingIndex (mergeAlert newAlertData dedupeKey now) })
  | none => (false, s)

/-- JS `Map.prototype.set`: overwrite in place when the key exists,
otherwise add a new entry. -/
def mapSet (key : String) (v : Alert) (m : List (String × Alert)) : List (String × Alert) :=
  if (m.map Prod.fst).contains key then
    m.map (fun kv => if kv.1 == key then (key, v) else kv)
  else
    (key, v) :: m

/-- JS `Map.prototype.delete`. -/
def mapDelete (key : String) (m : List (String × Alert)) : List (String × Alert) :=
  m.filter (fun kv => !(kv.1 == key))

/-- `addNewAlert(alertData)`: prepend to `alertMemory`, register a truthy
(non-empty) dedupe key in the set and the map, then evict the oldest
(last) entry when the collection exceeds `MAX_ALERTS`, unregistering the
evicted entry's dedupe key if it has one. -/
def addNewAlert (alertData : Alert) (s : Store) : Store :=
  let memory := alertData :: s.alertMemory
  let keys := if alertData.dedupeKey ≠ "" then s.dedupeKeys.insert alertData.dedupeKey
              else s.dedupeKeys
  let dmap := if alertData.dedupeKey ≠ "" then mapSet alertData.dedupeKey alertData s.alertDedupeMap
              else s.alertDedupeMap
  if memory.length > MAX_ALERTS then
    match memory.getLast? with
    | some removedAlert =>
      if removedAlert.dedupeKey ≠ "" then
        { alertMemory := memory.dropLast,
          dedupeKeys := keys.erase removedAlert.dedupeKey,
          alertDedupeMap := mapDelete removedAlert.dedupeKey dmap }
      else
        { alertMemory := memory.dropLast, dedupeKeys := keys, alertDedupeMap := dmap }
    | none => { alertMemory := memory, dedupeKeys := keys, alertDedupeMap := dmap }
  else
    { alertMemory := memory, dedupeKeys := keys, alertDedupeMap := dmap }

/-- Observer: the entry that `addNewAlert alertData` would evict from
store `s` (the last, i.e. oldest, element once the incoming alert is
prepended), or `none` when the capacity ceiling is not exceeded. -/
def evictedOf (alertData : Alert) (s : Store) : Option Alert :=
  if (alertData :: s.alertMemory).length > MAX_ALERTS then
    (alertData :: s.alertMemory).getLast?
  else none

/-- The dedupe branch of `router.post('/oci-alerts')`:
`if (dedupeKey && isDuplicateAlert(dedupeKey)) { updateExistingAlert(...) }
else { addNewAlert(...) }`, together with the reported `action` string.
The boolean returned by `updateExistingAlert` is ignored by the route. -/
def handleAlert (now : Nat) (alertData : Alert) (s : Store) : Store × String :=
  if alertData.dedupeKey ≠ "" ∧ isDuplicateAlert alertData.dedupeKey s then
    ((updateExistingAlert alertData.dedupeKey alertData now s).2, "updated")
  else
    (addNewAlert alertData s, "new")

/-- The store mutation performed by one webhook arrival. -/
def upsert (now : Nat) (alertData : Alert) (s : Store) : Store :=
  (handleAlert now alertData s).1

/-- The HTTP response of the webhook route for a normalized alert:
status 200 and `Alert <action> successfully`. -/
def webhookRespond (now : Nat) (alertData : Alert) (s : Store) : Nat × String × Store :=
  (200, "Alert " ++ (handleAlert now alertData s).2 ++ " successfully",
    (handleAlert now alertData s).1)

/-- The 6-hourly cleanup cron: drop from the key set and the key→alert map
every entry whose alert `timestamp` is older than six hours — without
touching `alertMemory`. -/
def prune (now : Nat) (s : Store) : Store :=
  let sixHoursAgo := now - SIX_HOURS_MS
  let staleKeys :=
    (s.alertDedupeMap.filter (fun kv => kv.2.timestamp < sixHoursAgo)).map Prod.fst
  { s with
    dedupeKeys := s.dedupeKeys.filter (fun k => !(staleKeys.contains k)),
    alertDedupeMap := s.alertDedupeMap.filter (fun kv => !(kv.2.timestamp < sixHoursAgo)) }

/-- The store operations that can hit the module state: a webhook arrival,
the daily 12:05 AM full reset, the 6-hourly dedupe-key cleanup, and the
manual `DELETE /alerts` endpoint (which clears only `alertMemory`). -/
inductive StoreOp where
  | arrive (now : Nat) (alertData : Alert)
  | dailyReset
  | cleanupDedupeKeys (now : Nat)
  | clearAlertsEndpoint
  deriving Repr, DecidableEq

/-- Apply one operation to the store. -/
def applyOp (s : Store) : StoreOp → Store
  | .arrive now alertData => upsert now alertData s
  | .dailyReset => store0
  | .cleanupDedupeKeys now => prune now s
  | .clearAlertsEndpoint => { s with alertMemory := [] }

/-- Run a sequence of operations. -/
def runOps (ops : List StoreOp) (s : Store) : Store :=
  ops.foldl applyOp s

/-- The spec scenario's first upsert: `{dedupeKey:"k1", severity:"warning"}`. -/
def alertWarn : Alert :=
  { id := "a1", severity := "warning", message := "m", vm := "vm1",
    timestamp := 10, dedupeKey := "k1", lastUpdated := none }

/-- The spec scenario's second upsert: `{dedupeKey:"k1", severity:"critical"}`. -/
def alertCrit : Alert := { alertWarn with severity := "critical" }

/-! ## Claim C2: the one-alert-per-dedupe-key invariant fails across pruning -/

/-- First arrival of the C2 counterexample: dedupe key `k`, event time 1000. -/
def pruneAlert1 : Alert :=
  { id := "p1", severity := "warning", message := "m", vm := "vm1",
    timestamp := 1000, dedupeKey := "k", lastUpdated := none }

/-- Re-arrival of the same dedupe key after the cleanup pass. -/
def pruneAlert2 : Alert := { pruneAlert1 with id := "p2", timestamp := 30000001 }

/-! ## Store invariants under webhook arrivals and daily resets -/

/-- Number of stored alerts carrying dedupe key `k`. -/
def keyCount (k : String) (l : List Alert) : Nat :=
  (l.filter (fun e => e.dedupeKey == k)).length

/-- The bookkeeping invariant of the deduplication store, preserved by
webhook arrivals and daily resets: the key set is duplicate-free, holds
only non-empty keys, each registered key has exactly one live alert in
the collection, each stored alert with a non-empty key is registered,
the key set and the key→alert map have the same domain, and the
collection respects the capacity ceiling. -/
structure StoreInv (s : Store) : Prop where
  nodupKeys : s.dedupeKeys.Nodup
  keysNonempty : ∀ k ∈ s.dedupeKeys, k ≠ ""
  uniqueCount : ∀ k ∈ s.dedupeKeys, keyCount k s.alertMemory = 1
  memRegistered : ∀ a ∈ s.alertMemory, a.dedupeKey ≠ "" → a.dedupeKey ∈ s.dedupeKeys
  mapDomain : ∀ k, k ∈ s.dedupeKeys ↔ k ∈ s.alertDedupeMap.map Prod.fst
  lenLe : s.alertMemory.length ≤ MAX_ALERTS

/-- `true` exactly for webhook-arrival operations. -/
def StoreOp.isArrive : StoreOp → Bool
  | .arrive _ _ => true
  | _ => false

/-- `true` exactly for the daily full-reset operation. -/
def StoreOp.isDailyReset : StoreOp → Bool
  | .dailyReset => true
  | _ => false

/-! ## Claim C3 counterexample: eviction ignores dedupe references -/

/-- The oldest arrival of the eviction counterexample: it carries an
actively registered dedupe key. -/
def cexKeyed : Alert :=
  { id := "c1", severity := "warning", message := "m", vm := "v",
    timestamp := 1, dedupeKey := "kold", lastUpdated := none }

/-- A filler arrival with empty dedupe key (per §4.3 such upserts are
always treated as new and consume one capacity slot each). -/
def cexNoKey : Alert :=
  { id := "c2", severity := "warning", message := "m", vm := "v",
    timestamp := 2, dedupeKey := "", lastUpdated := none }

/-- The keyed arrival followed by 9999 empty-key arrivals: the store is
exactly at the `MAX_ALERTS` ceiling afterwards. -/
def c3Ops : List StoreOp :=
  StoreOp.arrive 1 cexKeyed :: List.replicate 9999 (StoreOp.arrive 2 cexNoKey)

/-- The store reached by `c3Ops`: 9999 unkeyed alerts in front of the
keyed one, whose dedupe key is still registered. -/
def c3Store : Store :=
  { alertMemory := List.replicate 9999 cexNoKey ++ [cexKeyed],
    dedupeKeys := ["kold"],
    alertDedupeMap := [("kold", cexKeyed)] }

/-! ## Webhook normalization (routes/oci.js, POST /oci-alerts) -/

/-- JS truthiness of a JSON value. -/
def jsTruthy : JValue → Bool
  | .jnull => false
  | .jbool b => b
  | .jnum n => !(n == 0)
  | .jstr s => !(s == "")
  | .jarr _ => true
  | .jobj _ => true

/-- `if (webhookData.payload) { payload = webhookData.payload } else
{ payload = webhookData }` from the webhook route. -/
def unwrapPayload (webhookData : JValue) : JValue :=
  match getProp webhookData "payload" with
  | some p => if jsTruthy p then p else webhookData
  | none => webhookData

/-- JS `s.toLowerCase()` on a string, written structurally over the
character list (the behaviour of `String.toLower`, which is not
kernel-reducible). -/
def lowerString (s : String) : String := String.mk (s.data.map Char.toLower)

/-- JS `s.toUpperCase()` on a string, written structurally. -/
def upperString (s : String) : String := String.mk (s.data.map Char.toUpper)

/-- JS `v.toLowerCase()`: defined on strings, a `TypeError` on every
other value (numbers, booleans, arrays, objects, null). -/
def jsToLowerCase : JValue → Except String String
  | .jstr s => .ok (lowerString s)
  | _ => .error "TypeError: toLowerCase is not a function"

/-- The severity extraction of the webhook route:
`extractField(payload, ['severity','level','priority','alertLevel'], 'warning').toLowerCase()`.
This is the only method call applied to an extracted value inside the
route handler's try block, hence the only throw site for parsed JSON. -/
def normalizeSeverity (payload : JValue) : Except String String :=
  jsToLowerCase
    (extractField payload ["severity", "level", "priority", "alertLevel"] (.jstr "warning"))

/-- `webhookData.type === 'SubscriptionConfirmation'`. -/
def isSubscriptionConfirmation (webhookData : JValue) : Bool :=
  match getProp webhookData "type" with
  | some (.jstr s) => s == "SubscriptionConfirmation"
  | _ => false

/-- The HTTP status returned by `POST /oci-alerts` for a parsed JSON body:
200 for subscription confirmations and for every payload whose
normalization completes; 500 from the route's catch branch when
normalization throws. -/
def webhookStatus (body : JValue) : Nat :=
  if isSubscriptionConfirmation body then 200
  else
    match normalizeSeverity (unwrapPayload body) with
    | .ok _ => 200
    | .error _ => 500

/-- Coerce an extracted JSON value to the string stored on the Alert
record, falling back when the payload supplied a non-string value. -/
def jStr (v : JValue) (fallback : String) : String :=
  match v with
  | .jstr s => s
  | _ => fallback

/-- The dedupe key synthesized for arrivals without an idempotency field:
`` `webhook-${Date.now()}` ``. -/
def synthKey (now : Nat) : String := "webhook-" ++ Nat.repr now

/-- The `alertData` construction of the webhook route restricted to the
modelled fields.  `id`'s random suffix is omitted; the `timestamp` is the
payload's numeric event time or the arrival time. -/
def normalizeAlert (now : Nat) (webhookData : JValue) : Except String Alert :=
  let payload := unwrapPayload webhookData
  match normalizeSeverity payload with
  | .error e => .error e
  | .ok severity =>
    .ok { id := jStr (extractField payload ["id", "alarmOCID", "alarmId", "alertId"]
            (.jstr (synthKey now))) (synthKey now),
          severity := severity,
          message := jStr (extractField payload ["title", "message", "alertTitle", "name",
            "subject"] (.jstr "No title available")) "No title available",
          vm := jStr (extractField payload ["vm", "resourceDisplayName", "hostname",
            "instanceName", "serverName"] (.jstr "Unknown VM")) "Unknown VM",
          timestamp := (match extractField payload ["timestamp", "time", "createdAt"]
            (.jnum now) with
            | .jnum n => n.toNat
            | _ => now),
          dedupeKey := jStr (extractField payload ["dedupeKey", "deduplicationKey",
            "uniqueId"] (.jstr (synthKey now))) (synthKey now),
          lastUpdated := none }

/-- The alert produced by normalizing a payload that carries no fields at
all, at arrival time `t`: every field falls back to its default and the
dedupe key is synthesized from the arrival millisecond. -/
def noKeyAlert (t : Nat) : Alert :=
  { id := synthKey t, severity := "warning", message := "No title available",
    vm := "Unknown VM", timestamp := t, dedupeKey := synthKey t, lastUpdated := none }

/-! ## The client-side classifier/filter (alert-frontend/src/lib/alertUtils.ts) -/

/-- JS `s.includes(pat)`: substring containment. -/
def strIncludes (s pat : String) : Bool :=
  (List.range (s.length + 1)).any (fun i => pat.data.isPrefixOf (s.data.drop i))

/-- JS `s.startsWith(pat)`, written structurally. -/
def strStarts (s pat : String) : Bool := pat.data.isPrefixOf s.data

/-- JS `s.endsWith(pat)`, written structurally. -/
def strEnds (s pat : String) : Bool := pat.data.isSuffixOf s.data

/-- JS `a || b` on strings: the empty string falls through. -/
def jsOrStr (a b : String) : String := if a == "" then b else a

/-- JS `a || b` where `a` may be `undefined`. -/
def jsOrOpt (a : Option String) (b : String) : String :=
  match a with
  | some s => jsOrStr s b
  | none => b

/-- `GraylogAlert` (types/alerts.ts), restricted to the fields
`processAlerts` reads.  `timestamp` is modelled as epoch milliseconds. -/
structure GraylogAlert where
  _id : Option String
  channel : String
  shortMessage : String
  fullMessage : Option String
  severity : String
  timestamp : Nat
  deriving Repr, DecidableEq

/-- `OCIAlert` (types/alerts.ts), restricted to the fields
`processAlerts` reads. -/
structure OCIAlert where
  _id : Option String
  severity : String
  message : String
  vm : String
  tenant : String
  region : Option String
  compartment : Option String
  alertType : Option String
  metricName : Option String
  timestamp : Nat
  deriving Repr, DecidableEq

/-- Heartbeat service status values, including the `'...'` placeholder. -/
inductive HBStatus where
  | GREEN
  | RED
  | ORANGE
  | DOTS
  deriving Repr, DecidableEq

/-- `SITETYPE` of a heartbeat system. -/
inductive SiteType where
  | MULTI
  | STANDALONE
  deriving Repr, DecidableEq

/-- `HeartbeatAlert` (heartbeatService.ts).  `service` is the service
name string (`WEB`/`DB`/`MTSERVER`/`IVRRPT`); `timestamp` is
`UPD_DATETIME`, modelled as epoch milliseconds. -/
structure HeartbeatAlert where
  id : String
  site : String
  siteName : String
  service : String
  status : HBStatus
  severity : String
  message : String
  timestamp : Nat
  siteType : SiteType
  deriving Repr, DecidableEq

/-- `AlertFilters` (types/alerts.ts). -/
structure AlertFilters where
  severity : List String
  source : List String
  channel : List String
  timeRange : String
  searchText : String
  dynamicFilter : String
  region : Option String
  resourceType : Option String
  deriving Repr, DecidableEq

/-- `ProcessedAlert` (types/alerts.ts), restricted to the fields the first
`processAlerts` writes.  `services` entries are (name, status) pairs. -/
structure ProcessedAlert where
  id : String
  source : String
  severity : String
  title : String
  description : String
  timestamp : Nat
  site : Option String := none
  services : List (String × String) := []
  category : String
  region : Option String := none
  compartment : Option String := none
  metricName : Option String := none
  tenant : Option String := none
  resourceType : Option String := none
  deriving Repr, DecidableEq

/-- `mapSeverity` from alertUtils.ts: normalize free-text severity to the
closed set Critical/Warning/Error/Info; Error only for infrastructure. -/
def mapSeverity (severity source : String) : String :=
  let s := lowerString severity
  if source == "Infrastructure Alerts" then
    if strIncludes s "critical" || s == "crit" || s == "high" then "Critical"
    else if strIncludes s "warning" || s == "warn" || s == "medium" then "Warning"
    else if strIncludes s "error" || s == "err" then "Error"
    else if strIncludes s "info" || s == "low" then "Info"
    else "Info"
  else
    if strIncludes s "critical" || s == "crit" || s == "high" then "Critical"
    else if strIncludes s "warning" || s == "warn" || s == "medium" then "Warning"
    else if strIncludes s "error" || s == "err" || strIncludes s "info" || s == "low" then "Info"
    else "Info"

/-- The DB patterns of `isDatabaseAlert` in alertUtils.ts. -/
def dbPatterns : List String := ["db", "database", "db_", "_db", "db-", "-db"]

/-- `isDatabaseAlert` from alertUtils.ts (first copy): DB/DATABASE pattern
membership over vm/message/metricName/alertType plus the known database
alarm names. -/
def isDatabaseAlert (alert : OCIAlert) : Bool :=
  let vmName := lowerString alert.vm
  let message := lowerString alert.message
  let metricName := lowerString (alert.metricName.getD "")
  let alertType := lowerString (alert.alertType.getD "")
  dbPatterns.any (fun p => strIncludes vmName p)
  || dbPatterns.any (fun p => strIncludes message p)
  || dbPatterns.any (fun p => strIncludes metricName p)
  || dbPatterns.any (fun p => strIncludes alertType p)
  || strIncludes message "pht_database_session_alarm"
  || strIncludes message "gatra_sessions_alert"
  || strIncludes message "dtc-db_alert"
  || strIncludes message "qrydedb_"

/-- Category assignment for Graylog alerts from the channel name. -/
def graylogCategory (channel : String) : String :=
  if strIncludes channel "heartbeat" || strIncludes channel "monitor" then "heartbeat"
  else if strIncludes channel "infrastructure" || strIncludes channel "system" then "infrastructure"
  else "logs"

/-- Mapping of one Graylog alert into a presentation record. -/
def processGraylogAlert (alert : GraylogAlert) (index : Nat) : ProcessedAlert :=
  { id := jsOrOpt alert._id ("graylog-" ++ Nat.repr alert.timestamp ++ "-" ++ Nat.repr index),
    source := "Application Logs",
    severity := mapSeverity alert.severity "Application Logs",
    title := jsOrStr alert.shortMessage "No title",
    description := jsOrOpt alert.fullMessage (jsOrStr alert.shortMessage "No description"),
    timestamp := alert.timestamp,
    category := graylogCategory alert.channel }

/-- The title clean-up for OCI alerts: replace processing-error titles by
metric/alert-type names, truncate to 100 characters, strip an
`OCI_`/`ALARM_`/`ERROR_` marker (case-insensitively). -/
def ociAdjustedTitle (alert : OCIAlert) : String :=
  let t0 := jsOrStr alert.message "No title available"
  if strIncludes t0 "Processing Error" || strIncludes t0 "OCI_ALARM_ERROR" then
    match alert.metricName with
    | some m =>
      if m != "" && m != "Unknown" then m
      else
        match alert.alertType with
        | some aty => if aty != "" && aty != "OCI_ALARM" then aty else "Alert on " ++ alert.vm
        | none => "Alert on " ++ alert.vm
    | none =>
      match alert.alertType with
      | some aty => if aty != "" && aty != "OCI_ALARM" then aty else "Alert on " ++ alert.vm
      | none => "Alert on " ++ alert.vm
  else t0

/-- `alertTitle.substring(0, 97) + '...'` when over 100 characters. -/
def truncateTitle (t : String) : String :=
  if t.length > 100 then String.mk (t.data.take 97) ++ "..." else t

/-- `alertTitle.replace(/^(OCI_|ALARM_|ERROR_)/i, '')`. -/
def stripOciMarker (t : String) : String :=
  if strStarts (lowerString t) "oci_" then String.mk (t.data.drop 4)
  else if strStarts (lowerString t) "alarm_" then String.mk (t.data.drop 6)
  else if strStarts (lowerString t) "error_" then String.mk (t.data.drop 6)
  else t

/-- Mapping of one OCI alert into a presentation record. -/
def processOCIAlert (alert : OCIAlert) (index : Nat) : ProcessedAlert :=
  { id := jsOrOpt alert._id ("oci-" ++ Nat.repr alert.timestamp ++ "-" ++ Nat.repr index),
    source := "Infrastructure Alerts",
    severity := mapSeverity alert.severity "Infrastructure Alerts",
    title := stripOciMarker (truncateTitle (ociAdjustedTitle alert)),
    description := jsOrStr alert.message "No description available",
    timestamp := alert.timestamp,
    site := some alert.vm,
    category := if isDatabaseAlert alert then "database" else "infrastructure",
    region := alert.region,
    compartment := alert.compartment,
    metricName := alert.metricName,
    tenant := some alert.tenant,
    resourceType := some (if isDatabaseAlert alert then "Database" else "Server") }

/-- Mapping of one heartbeat alert into a presentation record. -/
def processHeartbeatAlert (alert : HeartbeatAlert) (index : Nat) : ProcessedAlert :=
  { id := jsOrStr alert.id ("heartbeat-" ++ Nat.repr alert.timestamp ++ "-" ++ Nat.repr index),
    source := "Application Heartbeat",
    severity := mapSeverity alert.severity "Application Heartbeat",
    title := alert.siteName ++ " - " ++ alert.service,
    description := alert.message,
    timestamp := alert.timestamp,
    site := some alert.site,
    services := [(alert.service,
      if alert.status == HBStatus.GREEN then "OK"
      else if alert.status == HBStatus.ORANGE then "WARN" else "ERR")],
    category := "heartbeat" }

/-- The dynamic-filter predicate of `processAlerts`. -/
def dynamicKeep (graylogAlerts : List GraylogAlert) (ociAlerts : List OCIAlert)
    (heartbeatAlerts : List HeartbeatAlert) (filterValue : String)
    (alert : ProcessedAlert) : Bool :=
  if alert.source == "Application Logs" then
    match graylogAlerts.find? (fun g => g.timestamp == alert.timestamp) with
    | some g =>
      if strStarts filterValue "#" then lowerString g.channel == lowerString filterValue
      else
        (match g.fullMessage with
         | some m => strIncludes (upperString m) (upperString filterValue)
         | none => false)
        || strIncludes (upperString g.shortMessage) (upperString filterValue)
    | none => false
  else if alert.source == "Infrastructure Alerts" then
    match ociAlerts.find? (fun o => o.timestamp == alert.timestamp) with
    | some o =>
      lowerString o.tenant == lowerString filterValue
      || strIncludes (lowerString o.vm) (lowerString filterValue)
    | none => false
  else if alert.source == "Application Heartbeat" then
    match heartbeatAlerts.find? (fun hb => hb.id == alert.id) with
    | some hb =>
      lowerString hb.service == lowerString filterValue
      || (if hb.site != "" then
            let site := lowerString hb.site
            if filterValue == "DBSPC" then strEnds site "_dbspc"
            else if filterValue == "gse" then strEnds site "-gse"
            else if filterValue == "aal" then strEnds site "_aal"
            else false
          else false)
    | none => false
  else false

/-- `processAlerts` from alertUtils.ts (first copy): early-return on an
empty source filter, per-source mapping gated by the source filter, the
filter chain (severity, source safety re-check, channel, dynamic filter,
region, resourceType, free-text search), and the newest-first sort. -/
def processAlerts (graylogAlerts : List GraylogAlert) (ociAlerts : List OCIAlert)
    (heartbeatAlerts : List HeartbeatAlert) (filters : AlertFilters) :
    List ProcessedAlert :=
  if filters.source.length = 0 then []
  else
    let shouldProcessGraylog := filters.source.contains "Application Logs"
    let shouldProcessOCI := filters.source.contains "Infrastructure Alerts"
    let shouldProcessHeartbeat := filters.source.contains "Application Heartbeat"
    let processed :=
      (if shouldProcessGraylog ∧ graylogAlerts ≠ [] then
        graylogAlerts.enum.map (fun ia => processGraylogAlert ia.2 ia.1) else [])
      ++ (if shouldProcessOCI ∧ ociAlerts ≠ [] then
        ociAlerts.enum.map (fun ia => processOCIAlert ia.2 ia.1) else [])
      ++ (if shouldProcessHeartbeat ∧ heartbeatAlerts ≠ [] then
        heartbeatAlerts.enum.map (fun ia => processHeartbeatAlert ia.2 ia.1) else [])
    let f1 := if 0 < filters.severity.length then
        processed.filter (fun a => filters.severity.contains a.severity) else processed
    let f2 := if 0 < filters.source.length then
        f1.filter (fun a => filters.source.contains a.source) else f1
    let f3 := if 0 < filters.channel.length then
        f2.filter (fun a => filters.channel.any (fun channel =>
          strIncludes a.category (lowerString channel)
          || strIncludes (lowerString a.source) (lowerString channel))) else f2
    let f4 := if filters.dynamicFilter ≠ "" ∧ filters.dynamicFilter ≠ "ALL" then
        f3.filter (dynamicKeep graylogAlerts ociAlerts heartbeatAlerts filters.dynamicFilter)
      else f3
    let f5 := match filters.region with
      | some r =>
        if r ≠ "" ∧ r ≠ "ALL" then
          f4.filter (fun (a : ProcessedAlert) =>
            !(a.source == "Infrastructure Alerts") || a.region == some r)
        else f4
      | none => f4
    let f6 := match filters.resourceType with
      | some rt =>
        if rt ≠ "" ∧ rt ≠ "ALL" then
          f5.filter (fun (a : ProcessedAlert) =>
            if a.source != "Infrastructure Alerts" then true else a.resourceType == some rt)
        else f5
      | none => f5
    let f7 := if filters.searchText ≠ "" then
        f6.filter (fun a =>
          strIncludes (lowerString a.title) (lowerString filters.searchText)
          || strIncludes (lowerString a.description) (lowerString filters.searchText)
          || (match a.site with
              | some st => strIncludes (lowerString st) (lowerString filters.searchText)
              | none => false))
      else f6
    f7.mergeSort (fun a b => b.timestamp ≤ a.timestamp)

/-- A concrete log alert for the C8/C9 witnesses. -/
def sampleGraylog : GraylogAlert :=
  { _id := none, channel := "#transit", shortMessage := "Camera offline",
    fullMessage := some "Camera at P3 lost connection", severity := "critical",
    timestamp := 100 }

/-- A concrete infrastructure alert for the C8 witness. -/
def sampleOCI : OCIAlert :=
  { _id := none, severity := "critical", message := "Web service down",
    vm := "RTD-PROD-02", tenant := "production", region := some "us-east-1",
    compartment := none, alertType := none, metricName := none, timestamp := 90 }

/-- A concrete heartbeat alert for the C8 witness. -/
def sampleHeartbeat : HeartbeatAlert :=
  { id := "heartbeat-S1-WEB-80", site := "S1", siteName := "Test", service := "WEB",
    status := HBStatus.RED, severity := "critical",
    message := "WEB service is down on Test", timestamp := 80,
    siteType := SiteType.STANDALONE }

/-! ## The heartbeat interpreter (alert-frontend/src/lib/heartbeatService.ts) -/

/-- `HeartbeatSystem` (heartbeatService.ts): one record per monitored
site with four service-status fields.  `UPD_DATETIME` is modelled as
epoch milliseconds. -/
structure HeartbeatSystem where
  SITE : String
  SITENAME : String
  SITETYPE : SiteType
  WEB : HBStatus
  DB : HBStatus
  MTSERVER : HBStatus
  IVRRPT : HBStatus
  UPD_DATETIME : Nat
  deriving Repr, DecidableEq

/-- The four service field names iterated by `convertToAlerts`. -/
inductive HBService where
  | WEB
  | DB
  | MTSERVER
  | IVRRPT
  deriving Repr, DecidableEq

/-- The service name string used in ids, records and messages. -/
def svcName : HBService → String
  | .WEB => "WEB"
  | .DB => "DB"
  | .MTSERVER => "MTSERVER"
  | .IVRRPT => "IVRRPT"

/-- `system[service]`. -/
def statusOf (system : HeartbeatSystem) : HBService → HBStatus
  | .WEB => system.WEB
  | .DB => system.DB
  | .MTSERVER => system.MTSERVER
  | .IVRRPT => system.IVRRPT

/-- One iteration of the inner `services.forEach` of `convertToAlerts`:
skip the `'...'` placeholder, otherwise derive severity and message from
the status and emit one record.  The message is non-empty in all three
remaining cases, so the `if (message)` guard always pushes. -/
def serviceAlert (system : HeartbeatSystem) (service : HBService) : Option HeartbeatAlert :=
  match statusOf system service with
  | .DOTS => none
  | .RED => some
      { id := "heartbeat-" ++ system.SITE ++ "-" ++ svcName service ++ "-"
          ++ Nat.repr system.UPD_DATETIME,
        site := system.SITE, siteName := system.SITENAME, service := svcName service,
        status := .RED, severity := "critical",
        message := svcName service ++ " service is down on " ++ system.SITENAME,
        timestamp := system.UPD_DATETIME, siteType := system.SITETYPE }
  | .ORANGE => some
      { id := "heartbeat-" ++ system.SITE ++ "-" ++ svcName service ++ "-"
          ++ Nat.repr system.UPD_DATETIME,
        site := system.SITE, siteName := system.SITENAME, service := svcName service,
        status := .ORANGE, severity := "medium",
        message := svcName service ++ " service has warnings on " ++ system.SITENAME,
        timestamp := system.UPD_DATETIME, siteType := system.SITETYPE }
  | .GREEN => some
      { id := "heartbeat-" ++ system.SITE ++ "-" ++ svcName service ++ "-"
          ++ Nat.repr system.UPD_DATETIME,
        site := system.SITE, siteName := system.SITENAME, service := svcName service,
        status := .GREEN, severity := "info",
        message := if system.SITETYPE = SiteType.STANDALONE
          then system.SITENAME ++ " system is operational"
          else svcName service ++ " service on " ++ system.SITENAME ++ " is operational",
        timestamp := system.UPD_DATETIME, siteType := system.SITETYPE }

/-- The fixed service iteration order of `convertToAlerts`. -/
def hbServices : List HBService := [.WEB, .DB, .MTSERVER, .IVRRPT]

/-- `convertToAlerts(systems)` from heartbeatService.ts. -/
def convertToAlerts (systems : List HeartbeatSystem) : List HeartbeatAlert :=
  systems.flatMap (fun system => hbServices.filterMap (serviceAlert system))

/-- The spec scenario system: STANDALONE, `SITENAME` "Test", `WEB` RED. -/
def c9RedSystem : HeartbeatSystem :=
  { SITE := "S1", SITENAME := "Test", SITETYPE := SiteType.STANDALONE,
    WEB := HBStatus.RED, DB := HBStatus.DOTS, MTSERVER := HBStatus.DOTS,
    IVRRPT := HBStatus.DOTS, UPD_DATETIME := 60 }

/-- The single record emitted for `c9RedSystem`. -/
def c9RedRecord : HeartbeatAlert :=
  { id := "heartbeat-S1-WEB-60", site := "S1", siteName := "Test", service := "WEB",
    status := HBStatus.RED, severity := "critical",
    message := "WEB service is down on Test", timestamp := 60,
    siteType := SiteType.STANDALONE }

/-- An ORANGE system for the C9 counterexample. -/
def c9OrangeSystem : HeartbeatSystem :=
  { SITE := "S1", SITENAME := "Test", SITETYPE := SiteType.STANDALONE,
    WEB := HBStatus.ORANGE, DB := HBStatus.DOTS, MTSERVER := HBStatus.DOTS,
    IVRRPT := HBStatus.DOTS, UPD_DATETIME := 50 }

/-- A GREEN STANDALONE system for the C9 counterexample. -/
def c9GreenSystem : HeartbeatSystem :=
  { SITE := "S1", SITENAME := "Test", SITETYPE := SiteType.STANDALONE,
    WEB := HBStatus.GREEN, DB := HBStatus.DOTS, MTSERVER := HBStatus.DOTS,
    IVRRPT := HBStatus.DOTS, UPD_DATETIME := 50 }

theorem extractField_eq_find (obj : JValue) (possibleNames : List String)
    (defaultValue : JValue) :
    extractField obj possibleNames defaultValue =
      match possibleNames.find? (fun n => keptAt obj n) with
      | some n => propOr obj n defaultValue
      | none => defaultValue := by
  induction possibleNames with
  | nil => rfl
  | cons name rest ih =>
    by_cases h : keptAt obj name
    · simp only [extractField, List.find?, h, if_pos]
      unfold keptAt at h
      unfold propOr
      cases hg : getProp obj name with
      | some v => simp [hg] at h ⊢; simp [h]
      | none => simp [hg] at h
    · have h' : keptAt obj name = false := by
        cases hb : keptAt obj name
        · rfl
        · exact absurd hb h
      simp only [extractField, List.find?, h']
      unfold keptAt at h'
      cases hg : getProp obj name with
      | some v => simp [hg] at h' ⊢; simp [h', ih]
      | none => simp [hg, ih]

/-! ## Claim C1: in-place update on duplicate dedupe key -/

/-- **C1.** When a webhook arrival carries a non-empty dedupe key that is
registered in the key set and present on a stored alert, the upsert
updates that alert in place: the collection becomes `set i (mergeAlert …)`
at the index of the existing alert, the size is unchanged, every incoming
field value overwrites the stored one, `dedupeKey` is preserved verbatim
and `lastUpdated` is stamped to now. -/
theorem dedupe_update_in_place (s : Store) (a : Alert) (now i : Nat)
    (h1 : a.dedupeKey ≠ "")
    (h2 : a.dedupeKey ∈ s.dedupeKeys)
    (h3 : s.alertMemory.findIdx? (fun e => e.dedupeKey == a.dedupeKey) = some i) :
    (upsert now a s).alertMemory
        = s.alertMemory.set i (mergeAlert a a.dedupeKey now)
    ∧ (upsert now a s).alertMemory.length = s.alertMemory.length
    ∧ (mergeAlert a a.dedupeKey now).dedupeKey = a.dedupeKey
    ∧ (mergeAlert a a.dedupeKey now).lastUpdated = some now
    ∧ (mergeAlert a a.dedupeKey now).id = a.id
    ∧ (mergeAlert a a.dedupeKey now).severity = a.severity
    ∧ (mergeAlert a a.dedupeKey now).message = a.message
    ∧ (mergeAlert a a.dedupeKey now).vm = a.vm
    ∧ (mergeAlert a a.dedupeKey now).timestamp = a.timestamp := by
  have hc : a.dedupeKey ≠ "" ∧ isDuplicateAlert a.dedupeKey s := by
    exact ⟨h1, by simp [isDuplicateAlert, h2]⟩
  unfold upsert handleAlert
  rw [if_pos hc]
  unfold updateExistingAlert
  rw [h3]
  exact ⟨rfl, by simp [List.length_set], rfl, rfl, rfl, rfl, rfl, rfl, rfl⟩

/-- Witness for C1, instantiating the spec scenario: after upserting
`k1/warning` then `k1/critical`, the store holds exactly one alert with
dedupe key `k1`, and its severity is `critical`. -/
theorem dedupe_update_in_place_witness :
    ((upsert 2 alertCrit (upsert 1 alertWarn store0)).alertMemory.filter
        (fun e => e.dedupeKey == "k1")).length = 1
    ∧ (upsert 2 alertCrit (upsert 1 alertWarn store0)).alertMemory.map Alert.severity
        = ["critical"]
    ∧ (upsert 2 alertCrit (upsert 1 alertWarn store0)).alertMemory
        = (upsert 1 alertWarn store0).alertMemory.set 0
            (mergeAlert alertCrit alertCrit.dedupeKey 2) :=
  ⟨by decide, by decide,
    (dedupe_update_in_place (upsert 1 alertWarn store0) alertCrit 2 0
      (by decide) (by decide) (by decide)).1⟩

/-! ## Claim C10: arrivals for a registered but absent key are dropped -/

/-- **C10.** The manual `DELETE /alerts` endpoint empties `alertMemory`
without clearing the key set.  A later arrival whose non-empty dedupe key
is still registered takes the update path, `updateExistingAlert` finds no
matching entry and leaves the store unchanged, `addNewAlert` is never
invoked — the alert is stored nowhere — yet the route still answers
200 `Alert updated successfully`. -/
theorem cleared_memory_drops_arrival (s : Store) (a : Alert) (now : Nat)
    (h1 : a.dedupeKey ≠ "") (h2 : a.dedupeKey ∈ s.dedupeKeys) :
    (webhookRespond now a (applyOp s .clearAlertsEndpoint)).1 = 200
    ∧ (webhookRespond now a (applyOp s .clearAlertsEndpoint)).2.1
        = "Alert updated successfully"
    ∧ (webhookRespond now a (applyOp s .clearAlertsEndpoint)).2.2
        = applyOp s .clearAlertsEndpoint
    ∧ (webhookRespond now a (applyOp s .clearAlertsEndpoint)).2.2.alertMemory = [] := by
  have hc : a.dedupeKey ≠ "" ∧ isDuplicateAlert a.dedupeKey (applyOp s .clearAlertsEndpoint) := by
    exact ⟨h1, by simp [isDuplicateAlert, applyOp, h2]⟩
  unfold webhookRespond handleAlert
  rw [if_pos hc]
  unfold updateExistingAlert
  simp [applyOp]

/-- Witness for C10 at a concrete store: insert `k1`, clear memory, then
deliver a fresh alert bearing `k1`. -/
theorem cleared_memory_drops_arrival_witness :
    (webhookRespond 3 alertCrit (applyOp (upsert 1 alertWarn store0) .clearAlertsEndpoint)).1 = 200
    ∧ (webhookRespond 3 alertCrit (applyOp (upsert 1 alertWarn store0) .clearAlertsEndpoint)).2.1
        = "Alert updated successfully"
    ∧ (webhookRespond 3 alertCrit (applyOp (upsert 1 alertWarn store0) .clearAlertsEndpoint)).2.2
        = applyOp (upsert 1 alertWarn store0) .clearAlertsEndpoint
    ∧ (webhookRespond 3 alertCrit
        (applyOp (upsert 1 alertWarn store0) .clearAlertsEndpoint)).2.2.alertMemory = [] :=
  cleared_memory_drops_arrival (upsert 1 alertWarn store0) alertCrit 3
    (by decide) (by decide)

/-- **C2 counterexample.** An arrival with dedupe key `k`, a 6-hourly
cleanup pass (which unregisters `k` but keeps the alert in the
collection), then a second arrival bearing `k`: the store ends with two
live alerts carrying the same non-empty dedupe key, refuting the
exactly-one-alert-per-key invariant for this operation sequence. -/
theorem dedupe_invariant_counterexample :
    ((runOps [.arrive 1000 pruneAlert1, .cleanupDedupeKeys 30000000,
        .arrive 30000001 pruneAlert2] store0).alertMemory.filter
      (fun e => e.dedupeKey == "k")).length = 2
    ∧ ((runOps [.arrive 1000 pruneAlert1, .cleanupDedupeKeys 30000000,
        .arrive 30000001 pruneAlert2] store0).alertMemory.filter
      (fun e => e.dedupeKey == "k")).length ≠ 1 :=
  ⟨by decide, by decide⟩

/-! ## Claim C7: key set / map / collection consistency fails after an update -/

/-- **C7 counterexample.** After an in-place update, `alertDedupeMap`
still holds the insertion-time alert (severity `warning`) while the
collection holds the merged alert (severity `critical`), so the map entry
for a registered key is not the stored alert. -/
theorem store_consistency_counterexample :
    (upsert 2 alertCrit (upsert 1 alertWarn store0)).alertMemory
        = [mergeAlert alertCrit "k1" 2]
    ∧ (upsert 2 alertCrit (upsert 1 alertWarn store0)).alertDedupeMap.lookup "k1"
        = some alertWarn
    ∧ alertWarn ≠ mergeAlert alertCrit "k1" 2
    ∧ (mergeAlert alertCrit "k1" 2).severity = "critical"
    ∧ alertWarn.severity = "warning" :=
  ⟨by decide, by decide, by decide, by decide, by decide⟩

theorem keyCount_cons (k : String) (a : Alert) (l : List Alert) :
    keyCount k (a :: l) = (if a.dedupeKey == k then 1 else 0) + keyCount k l := by
  simp only [keyCount, List.filter_cons]
  split <;> simp [Nat.add_comm]

theorem keyCount_eq_zero_iff (k : String) (l : List Alert) :
    keyCount k l = 0 ↔ ∀ a ∈ l, a.dedupeKey ≠ k := by
  simp [keyCount, List.length_eq_zero, List.filter_eq_nil_iff]

/-- Replacing the first alert that matches dedupe key `k` by another alert
whose dedupe key is `k` preserves every per-key count. -/
theorem keyCount_set_of_found (l : List Alert) (i : Nat) (k : String) (m : Alert)
    (hfind : l.findIdx? (fun e => e.dedupeKey == k) = some i)
    (hm : m.dedupeKey = k) (w : String) :
    keyCount w (l.set i m) = keyCount w l := by
  obtain ⟨hlt, hp, -⟩ := List.findIdx?_eq_some_iff_getElem.mp hfind
  have hkey : l[i].dedupeKey = k := by simpa using hp
  rw [List.set_eq_take_append_cons_drop, if_pos hlt]
  conv_rhs => rw [← List.take_append_drop i l, List.drop_eq_getElem_cons hlt]
  simp only [keyCount, List.filter_append, List.length_append, List.filter_cons, hkey, hm]
  split <;> simp

theorem storeInv_store0 : StoreInv store0 := by
  constructor <;> simp [store0, MAX_ALERTS]

theorem storeInv_addNewAlert (s : Store) (a : Alert) (h : StoreInv s)
    (hfresh : a.dedupeKey = "" ∨ a.dedupeKey ∉ s.dedupeKeys) :
    StoreInv (addNewAlert a s) := by
  have hcnt0 : a.dedupeKey ≠ "" → a.dedupeKey ∉ s.dedupeKeys →
      keyCount a.dedupeKey s.alertMemory = 0 := by
    intro hne hnm
    rw [keyCount_eq_zero_iff]
    intro b hb hbk
    have hbne : b.dedupeKey ≠ "" := by rw [hbk]; exact hne
    exact hnm (hbk ▸ h.memRegistered b hb hbne)
  -- facts about the pre-eviction intermediate state
  set memory := a :: s.alertMemory with hmemdef
  set keys := (if a.dedupeKey ≠ "" then s.dedupeKeys.insert a.dedupeKey else s.dedupeKeys)
    with hkeysdef
  set dmap := (if a.dedupeKey ≠ "" then mapSet a.dedupeKey a s.alertDedupeMap
    else s.alertDedupeMap) with hdmapdef
  have f1 : keys.Nodup := by
    rw [hkeysdef]; split
    · exact h.nodupKeys.insert
    · exact h.nodupKeys
  have f2 : ∀ k ∈ keys, k ≠ "" := by
    rw [hkeysdef]; split <;> rename_i hne
    · intro k hk
      rcases List.mem_insert_iff.mp hk with rfl | hk
      · exact hne
      · exact h.keysNonempty k hk
    · exact h.keysNonempty
  have f3 : ∀ k ∈ keys, keyCount k memory = 1 := by
    intro k hk
    rw [hmemdef, keyCount_cons]
    rw [hkeysdef] at hk
    by_cases hne : a.dedupeKey = ""
    · simp only [hne, if_neg, ne_eq, not_true_eq_false, if_false] at hk
      have hkne : k ≠ "" := h.keysNonempty k hk
      have : (Alert.dedupeKey a == k) = false := by
        simp [hne]; exact fun hh => hkne hh.symm
      simp [this, h.uniqueCount k hk]
    · simp only [ne_eq, hne, not_false_eq_true, if_true] at hk
      have hnm : a.dedupeKey ∉ s.dedupeKeys := by
        rcases hfresh with he | hnm
        · exact absurd he hne
        · exact hnm
      rcases List.mem_insert_iff.mp hk with rfl | hk
      · have hz : keyCount a.dedupeKey s.alertMemory = 0 := hcnt0 hne hnm
        simp [hz]
      · have hkk : a.dedupeKey ≠ k := by
          rintro rfl
          exact hnm hk
        have : (Alert.dedupeKey a == k) = false := by simpa using hkk
        simp [this, h.uniqueCount k hk]
  have f4 : ∀ b ∈ memory, b.dedupeKey ≠ "" → b.dedupeKey ∈ keys := by
    intro b hb hbne
    rw [hmemdef] at hb
    rw [hkeysdef]
    rcases List.mem_cons.mp hb with rfl | hb
    · simp only [hbne, ne_eq, not_false_eq_true, if_true]
      exact List.mem_insert_self _ _
    · have := h.memRegistered b hb hbne
      split
      · exact List.mem_insert_of_mem this
      · exact this
  have f5 : ∀ k, k ∈ keys ↔ k ∈ dmap.map Prod.fst := by
    intro k
    rw [hkeysdef, hdmapdef]
    by_cases hne : a.dedupeKey = ""
    · simp only [hne, ne_eq, not_true_eq_false, if_false]
      exact h.mapDomain k
    · simp only [ne_eq, hne, not_false_eq_true, if_true]
      have hnotdom : ¬ a.dedupeKey ∈ s.alertDedupeMap.map Prod.fst := by
        intro hd
        rcases hfresh with he | hnm
        · exact hne he
        · exact hnm ((h.mapDomain _).mpr hd)
      have hms : mapSet a.dedupeKey a s.alertDedupeMap
          = (a.dedupeKey, a) :: s.alertDedupeMap := by
        unfold mapSet
        rw [if_neg]
        simpa using hnotdom
      rw [hms, List.insert_of_not_mem]
      · simp only [List.map_cons, List.mem_cons]
        constructor
        · rintro (rfl | hk)
          · exact Or.inl rfl
          · exact Or.inr ((h.mapDomain k).mp hk)
        · rintro (rfl | hk)
          · exact Or.inl rfl
          · exact Or.inr ((h.mapDomain k).mpr hk)
      · rcases hfresh with he | hnm
        · exact absurd he hne
        · exact hnm
  -- now the eviction split of addNewAlert
  show StoreInv (addNewAlert a s)
  unfold addNewAlert
  rw [← hmemdef, ← hkeysdef, ← hdmapdef]
  by_cases hlen : memory.length > MAX_ALERTS
  · rw [if_pos hlen]
    have hmem_ne : memory ≠ [] := by rw [hmemdef]; exact List.cons_ne_nil _ _
    obtain ⟨e, he⟩ : ∃ e, memory.getLast? = some e := by
      have := List.getLast?_isSome.mpr hmem_ne
      cases hg : memory.getLast? with
      | some e => exact ⟨e, rfl⟩
      | none => rw [hg] at this; simp at this
    rw [he]
    show StoreInv (if e.dedupeKey ≠ "" then
      { alertMemory := memory.dropLast, dedupeKeys := keys.erase e.dedupeKey,
        alertDedupeMap := mapDelete e.dedupeKey dmap }
      else { alertMemory := memory.dropLast, dedupeKeys := keys, alertDedupeMap := dmap })
    have hsplit : memory.dropLast ++ [e] = memory :=
      List.dropLast_append_getLast? e he
    have hemem : e ∈ memory := List.mem_of_getLast?_eq_some he
    have hcount_split : ∀ k, keyCount k memory
        = keyCount k memory.dropLast + (if e.dedupeKey == k then 1 else 0) := by
      intro k
      conv_lhs => rw [← hsplit]
      simp only [keyCount, List.filter_append, List.length_append, List.filter_cons,
        List.filter_nil]
      split <;> simp
    have hlenLast : memory.dropLast.length ≤ MAX_ALERTS := by
      have h1 : memory.length = s.alertMemory.length + 1 := by
        rw [hmemdef]; simp
      have := h.lenLe
      simp only [List.length_dropLast]
      omega
    by_cases hee : e.dedupeKey = ""
    · rw [if_neg (by simp [hee])]
      refine ⟨f1, f2, ?_, ?_, f5, hlenLast⟩
      · intro k hk
        have h1 := f3 k hk
        rw [hcount_split k] at h1
        have : (Alert.dedupeKey e == k) = false := by
          simp [hee]
          exact fun hh => f2 k hk hh.symm
        rw [this] at h1
        simpa using h1
      · intro b hb hbne
        exact f4 b (List.dropLast_subset memory hb) hbne
    · rw [if_pos hee]
      have heKeys : e.dedupeKey ∈ keys := f4 e hemem hee
      refine ⟨f1.erase _, ?_, ?_, ?_, ?_, hlenLast⟩
      · intro k hk
        exact f2 k (List.mem_of_mem_erase hk)
      · intro k hk
        rcases (f1.mem_erase_iff).mp hk with ⟨hke, hkm⟩
        have h1 := f3 k hkm
        rw [hcount_split k] at h1
        have : (Alert.dedupeKey e == k) = false := by
          simpa using fun hh => hke hh.symm
        rw [this] at h1
        simpa using h1
      · intro b hb hbne
        have hbm : b ∈ memory := List.dropLast_subset memory hb
        have hbk : b.dedupeKey ∈ keys := f4 b hbm hbne
        rw [f1.mem_erase_iff]
        refine ⟨?_, hbk⟩
        intro hbe
        -- b and e would be two distinct stored occurrences of the same key
        have h1 := f3 e.dedupeKey heKeys
        rw [hcount_split e.dedupeKey] at h1
        simp only [beq_self_eq_true, if_true] at h1
        have : keyCount e.dedupeKey memory.dropLast = 0 := by omega
        rw [keyCount_eq_zero_iff] at this
        exact this b hb hbe
      · intro k
        rw [f1.mem_erase_iff]
        constructor
        · rintro ⟨hke, hkm⟩
          have := (f5 k).mp hkm
          simp only [mapDelete, List.mem_map] at this ⊢
          obtain ⟨kv, hkv, rfl⟩ := this
          refine ⟨kv, List.mem_filter.mpr ⟨hkv, ?_⟩, rfl⟩
          simpa using hke
        · intro hk
          simp only [mapDelete, List.mem_map] at hk
          obtain ⟨kv, hkv, rfl⟩ := hk
          have hin := List.mem_filter.mp hkv
          refine ⟨by simpa using hin.2, (f5 kv.1).mpr ?_⟩
          exact List.mem_map.mpr ⟨kv, hin.1, rfl⟩
  · rw [if_neg hlen]
    refine ⟨f1, f2, f3, f4, f5, ?_⟩
    show memory.length ≤ MAX_ALERTS
    omega

theorem storeInv_upsert (s : Store) (now : Nat) (a : Alert) (h : StoreInv s) :
    StoreInv (upsert now a s) := by
  unfold upsert handleAlert
  by_cases hdup : a.dedupeKey ≠ "" ∧ isDuplicateAlert a.dedupeKey s
  · rw [if_pos hdup]
    obtain ⟨hne, hmem'⟩ := hdup
    have hmem : a.dedupeKey ∈ s.dedupeKeys := by
      simpa [isDuplicateAlert] using hmem'
    have hcount := h.uniqueCount _ hmem
    have hex : ∃ x, x ∈ s.alertMemory ∧ (x.dedupeKey == a.dedupeKey) = true := by
      by_contra hno
      push_neg at hno
      have : keyCount a.dedupeKey s.alertMemory = 0 := by
        rw [keyCount_eq_zero_iff]
        intro b hb
        have := hno b hb
        simpa using this
      omega
    have hfind := List.findIdx?_eq_some_of_exists hex
    set i := s.alertMemory.findIdx (fun e => e.dedupeKey == a.dedupeKey) with hidef
    unfold updateExistingAlert
    rw [hfind]
    show StoreInv
      ({ alertMemory := s.alertMemory.set i (mergeAlert a a.dedupeKey now),
         dedupeKeys := s.dedupeKeys, alertDedupeMap := s.alertDedupeMap })
    refine ⟨h.nodupKeys, h.keysNonempty, ?_, ?_, h.mapDomain, ?_⟩
    · intro k hk
      rw [keyCount_set_of_found s.alertMemory i a.dedupeKey
        (mergeAlert a a.dedupeKey now) hfind rfl k]
      exact h.uniqueCount k hk
    · intro b hb hbne
      rcases List.mem_or_eq_of_mem_set hb with hb | rfl
      · exact h.memRegistered b hb hbne
      · exact hmem
    · simpa [List.length_set] using h.lenLe
  · rw [if_neg hdup]
    apply storeInv_addNewAlert s a h
    by_cases he : a.dedupeKey = ""
    · exact Or.inl he
    · right
      intro hm
      exact hdup ⟨he, by simpa [isDuplicateAlert] using hm⟩

theorem storeInv_applyOp (s : Store) (op : StoreOp) (h : StoreInv s)
    (hop : op.isArrive ∨ op.isDailyReset) :
    StoreInv (applyOp s op) := by
  cases op with
  | arrive now a => exact storeInv_upsert s now a h
  | dailyReset => exact storeInv_store0
  | cleanupDedupeKeys now => simp [StoreOp.isArrive, StoreOp.isDailyReset] at hop
  | clearAlertsEndpoint => simp [StoreOp.isArrive, StoreOp.isDailyReset] at hop

theorem storeInv_runOps (ops : List StoreOp)
    (hops : ∀ op ∈ ops, op.isArrive ∨ op.isDailyReset)
    (s : Store) (h : StoreInv s) : StoreInv (runOps ops s) := by
  induction ops generalizing s with
  | nil => exact h
  | cons op rest ih =>
    exact ih (fun o ho => hops o (List.mem_cons_of_mem _ ho))
      (applyOp s op) (storeInv_applyOp s op h (hops op (List.mem_cons_self _ _)))

/-! ## Claim C3: capacity ceiling and eviction behaviour -/

theorem runOps_cons (op : StoreOp) (ops : List StoreOp) (s : Store) :
    runOps (op :: ops) s = runOps ops (applyOp s op) := rfl

theorem addNewAlert_length (a : Alert) (s : Store)
    (h : s.alertMemory.length ≤ MAX_ALERTS) :
    (addNewAlert a s).alertMemory.length ≤ MAX_ALERTS := by
  unfold addNewAlert
  by_cases hlen : (a :: s.alertMemory).length > MAX_ALERTS
  · rw [if_pos hlen]
    have hne : (a :: s.alertMemory) ≠ [] := List.cons_ne_nil _ _
    obtain ⟨e, he⟩ : ∃ e, (a :: s.alertMemory).getLast? = some e := by
      have := List.getLast?_isSome.mpr hne
      cases hg : (a :: s.alertMemory).getLast? with
      | some e => exact ⟨e, rfl⟩
      | none => rw [hg] at this; simp at this
    rw [he]
    show ((if e.dedupeKey ≠ "" then _ else _ : Store)).alertMemory.length ≤ MAX_ALERTS
    split <;> simp [List.length_dropLast] <;> omega
  · rw [if_neg hlen]
    show (a :: s.alertMemory).length ≤ MAX_ALERTS
    omega

theorem upsert_length (now : Nat) (a : Alert) (s : Store)
    (h : s.alertMemory.length ≤ MAX_ALERTS) :
    (upsert now a s).alertMemory.length ≤ MAX_ALERTS := by
  unfold upsert handleAlert
  by_cases hdup : a.dedupeKey ≠ "" ∧ isDuplicateAlert a.dedupeKey s
  · rw [if_pos hdup]
    unfold updateExistingAlert
    cases hfind : s.alertMemory.findIdx? (fun alert => alert.dedupeKey == a.dedupeKey) with
    | some i =>
      show (s.alertMemory.set i _).length ≤ MAX_ALERTS
      simpa [List.length_set] using h
    | none => exact h
  · rw [if_neg hdup]
    exact addNewAlert_length a s h

theorem applyOp_length (s : Store) (op : StoreOp)
    (h : s.alertMemory.length ≤ MAX_ALERTS) :
    (applyOp s op).alertMemory.length ≤ MAX_ALERTS := by
  cases op with
  | arrive now a => exact upsert_length now a s h
  | dailyReset => simp [applyOp, store0]
  | cleanupDedupeKeys now => simpa [applyOp, prune] using h
  | clearAlertsEndpoint => simp [applyOp]

theorem runOps_length (ops : List StoreOp) (s : Store)
    (h : s.alertMemory.length ≤ MAX_ALERTS) :
    (runOps ops s).alertMemory.length ≤ MAX_ALERTS := by
  induction ops generalizing s with
  | nil => exact h
  | cons op rest ih => exact ih (applyOp s op) (applyOp_length s op h)

/-- Unfolding of `addNewAlert` in the eviction case. -/
theorem addNewAlert_evict (a : Alert) (s : Store) (e : Alert)
    (hgt : (a :: s.alertMemory).length > MAX_ALERTS)
    (he : (a :: s.alertMemory).getLast? = some e) :
    addNewAlert a s = (if e.dedupeKey ≠ "" then
      { alertMemory := (a :: s.alertMemory).dropLast,
        dedupeKeys := (if a.dedupeKey ≠ "" then s.dedupeKeys.insert a.dedupeKey
          else s.dedupeKeys).erase e.dedupeKey,
        alertDedupeMap := mapDelete e.dedupeKey
          (if a.dedupeKey ≠ "" then mapSet a.dedupeKey a s.alertDedupeMap
            else s.alertDedupeMap) }
      else
      { alertMemory := (a :: s.alertMemory).dropLast,
        dedupeKeys := if a.dedupeKey ≠ "" then s.dedupeKeys.insert a.dedupeKey
          else s.dedupeKeys,
        alertDedupeMap := if a.dedupeKey ≠ "" then mapSet a.dedupeKey a s.alertDedupeMap
          else s.alertDedupeMap }) := by
  unfold addNewAlert
  rw [if_pos hgt, he]

/-- **C3 (amended).** (1) After every prefix of every operation sequence
the collection holds at most `MAX_ALERTS` alerts.  (2) Eviction is
strictly size-triggered: an insertion evicts exactly when the prepended
collection exceeds `MAX_ALERTS`, in which case exactly the oldest entry
(the last, regardless of whether its dedupe key is still actively
referenced) is removed and its non-empty dedupe key is unregistered from
the key set and the key→alert map. -/
theorem capacity_bound_amended :
    (∀ (ops : List StoreOp) (n : Nat),
      (runOps (ops.take n) store0).alertMemory.length ≤ MAX_ALERTS)
    ∧ (∀ (s : Store) (a : Alert), s.alertMemory.length ≤ MAX_ALERTS →
        s.dedupeKeys.Nodup →
        ((evictedOf a s).isSome ↔ (a :: s.alertMemory).length > MAX_ALERTS)
        ∧ (evictedOf a s = none → (addNewAlert a s).alertMemory = a :: s.alertMemory)
        ∧ (∀ e, evictedOf a s = some e →
            s.alertMemory.getLast? = some e
            ∧ (addNewAlert a s).alertMemory = (a :: s.alertMemory).dropLast
            ∧ (addNewAlert a s).alertMemory.length = MAX_ALERTS
            ∧ (e.dedupeKey ≠ "" →
                e.dedupeKey ∉ (addNewAlert a s).dedupeKeys
                ∧ e.dedupeKey ∉ (addNewAlert a s).alertDedupeMap.map Prod.fst))) := by
  constructor
  · intro ops n
    exact runOps_length (ops.take n) store0 (by simp [store0, MAX_ALERTS])
  · intro s a hlen hnodup
    refine ⟨?_, ?_, ?_⟩
    · unfold evictedOf
      split <;> rename_i hgt
      · simpa using hgt
      · simpa using hgt
    · intro hnone
      unfold evictedOf at hnone
      split at hnone <;> rename_i hgt
      · have hne : (a :: s.alertMemory) ≠ [] := List.cons_ne_nil _ _
        have := List.getLast?_isSome.mpr hne
        rw [hnone] at this
        simp at this
      · unfold addNewAlert
        rw [if_neg hgt]
    · intro e he
      unfold evictedOf at he
      split at he <;> rename_i hgt
      · have hmemne : s.alertMemory ≠ [] := by
          intro hnil
          rw [hnil] at hgt
          simp [MAX_ALERTS] at hgt
        have hglast : s.alertMemory.getLast? = some e := by
          rcases hmem : s.alertMemory with _ | ⟨b, t⟩
          · exact absurd hmem hmemne
          · rw [hmem] at he
            rw [List.getLast?_cons_cons] at he
            exact he
        have hlen2 : (a :: s.alertMemory).length = MAX_ALERTS + 1 := by
          simp only [List.length_cons] at hgt ⊢
          omega
        refine ⟨hglast, ?_, ?_, ?_⟩
        · rw [addNewAlert_evict a s e hgt he]
          split <;> rfl
        · rw [addNewAlert_evict a s e hgt he]
          split <;> simp [List.length_dropLast, hlen2]
        · intro hene
          rw [addNewAlert_evict a s e hgt he, if_pos hene]
          constructor
          · show e.dedupeKey ∉
              (if a.dedupeKey ≠ "" then s.dedupeKeys.insert a.dedupeKey
                else s.dedupeKeys).erase e.dedupeKey
            have hnodup2 : (if a.dedupeKey ≠ "" then s.dedupeKeys.insert a.dedupeKey
                else s.dedupeKeys).Nodup := by
              split
              · exact hnodup.insert
              · exact hnodup
            intro hcontra
            exact absurd ((hnodup2.mem_erase_iff).mp hcontra).1 (by simp)
          · show e.dedupeKey ∉ (mapDelete e.dedupeKey _).map Prod.fst
            intro hcontra
            simp only [mapDelete, List.mem_map] at hcontra
            obtain ⟨kv, hkv, hfst⟩ := hcontra
            have := (List.mem_filter.mp hkv).2
            rw [hfst] at this
            simp at this
      · exact absurd he (by simp)

/-- Witness for C3 (amended): the capacity bound at a concrete prefix,
and the no-eviction branch at a concrete small store. -/
theorem capacity_bound_amended_witness :
    (runOps ([StoreOp.arrive 1 alertWarn].take 1) store0).alertMemory.length ≤ MAX_ALERTS
    ∧ (addNewAlert alertCrit store0).alertMemory = alertCrit :: store0.alertMemory :=
  ⟨capacity_bound_amended.1 [StoreOp.arrive 1 alertWarn] 1,
    (capacity_bound_amended.2 store0 alertCrit (by decide) (by decide)).2.1 (by decide)⟩

/-- **C2 (amended).** For every sequence of webhook arrivals and daily
resets — i.e. without the 6-hourly dedupe-key pruning pass — every stored
alert with a non-empty dedupe key is the unique live alert carrying that
key.  (The pruning pass followed by a re-arrival of a pruned key breaks
this; see the counterexample.) -/
theorem dedupe_invariant_amended (ops : List StoreOp)
    (hops : ∀ op ∈ ops, op.isArrive ∨ op.isDailyReset) :
    ∀ a ∈ (runOps ops store0).alertMemory, a.dedupeKey ≠ "" →
      keyCount a.dedupeKey (runOps ops store0).alertMemory = 1 := by
  intro a ha hane
  have hinv := storeInv_runOps ops hops store0 storeInv_store0
  exact hinv.uniqueCount _ (hinv.memRegistered a ha hane)

/-- Witness for C2 (amended): concrete arrivals sharing dedupe key `k1`
leave exactly one live alert with that key. -/
theorem dedupe_invariant_amended_witness :
    keyCount (mergeAlert alertCrit alertCrit.dedupeKey 2).dedupeKey
      (runOps [.arrive 1 alertWarn, .arrive 2 alertCrit] store0).alertMemory = 1 :=
  dedupe_invariant_amended [.arrive 1 alertWarn, .arrive 2 alertCrit] (by decide)
    (mergeAlert alertCrit alertCrit.dedupeKey 2) (by decide) (by decide)

/-- **C7 (amended).** Across webhook arrivals and daily resets (without
the pruning pass) the key set is consistent with the collection — every
registered key has exactly one stored alert and every stored alert with a
non-empty key is registered — and the key set and the key→alert map have
the same key domain.  The map's *entries*, however, are the
insertion-time alert records, not the updated ones (see the
counterexample), and the pruning pass breaks even the set/collection
consistency. -/
theorem store_consistency_amended (ops : List StoreOp)
    (hops : ∀ op ∈ ops, op.isArrive ∨ op.isDailyReset) :
    (∀ k ∈ (runOps ops store0).dedupeKeys,
        keyCount k (runOps ops store0).alertMemory = 1)
    ∧ (∀ a ∈ (runOps ops store0).alertMemory, a.dedupeKey ≠ "" →
        a.dedupeKey ∈ (runOps ops store0).dedupeKeys)
    ∧ (∀ k, k ∈ (runOps ops store0).dedupeKeys
        ↔ k ∈ (runOps ops store0).alertDedupeMap.map Prod.fst) := by
  have hinv := storeInv_runOps ops hops store0 storeInv_store0
  exact ⟨hinv.uniqueCount, hinv.memRegistered, hinv.mapDomain⟩

/-- Witness for C7 (amended) at a concrete arrival sequence. -/
theorem store_consistency_amended_witness :
    (∀ k ∈ (runOps [.arrive 1 alertWarn, .arrive 2 alertCrit] store0).dedupeKeys,
        keyCount k (runOps [.arrive 1 alertWarn, .arrive 2 alertCrit] store0).alertMemory = 1)
    ∧ (∀ a ∈ (runOps [.arrive 1 alertWarn, .arrive 2 alertCrit] store0).alertMemory,
        a.dedupeKey ≠ "" →
        a.dedupeKey ∈ (runOps [.arrive 1 alertWarn, .arrive 2 alertCrit] store0).dedupeKeys)
    ∧ (∀ k, k ∈ (runOps [.arrive 1 alertWarn, .arrive 2 alertCrit] store0).dedupeKeys
        ↔ k ∈ (runOps [.arrive 1 alertWarn,
            .arrive 2 alertCrit] store0).alertDedupeMap.map Prod.fst) :=
  store_consistency_amended [.arrive 1 alertWarn, .arrive 2 alertCrit] (by decide)

theorem upsert_emptyKey_toAdd (t : Nat) (b : Alert) (hb : b.dedupeKey = "") (s : Store) :
    upsert t b s = addNewAlert b s := by
  have hcond : ¬(b.dedupeKey ≠ "" ∧ isDuplicateAlert b.dedupeKey s = true) :=
    fun hc => hc.1 hb
  unfold upsert handleAlert
  rw [if_neg hcond]

theorem upsert_emptyKey (t : Nat) (b : Alert) (hb : b.dedupeKey = "") (s : Store)
    (hlen : s.alertMemory.length + 1 ≤ MAX_ALERTS) :
    upsert t b s = { s with alertMemory := b :: s.alertMemory } := by
  rw [upsert_emptyKey_toAdd t b hb s]
  unfold addNewAlert
  rw [if_neg (by simp only [List.length_cons]; omega)]
  simp [hb]

theorem runOps_replicate_emptyKey (n t : Nat) (b : Alert) (hb : b.dedupeKey = "") :
    ∀ s : Store, s.alertMemory.length + n ≤ MAX_ALERTS →
      runOps (List.replicate n (StoreOp.arrive t b)) s
        = { s with alertMemory := List.replicate n b ++ s.alertMemory } := by
  induction n with
  | zero => intro s _; simp [runOps]
  | succ m ih =>
    intro s hlen
    rw [List.replicate_succ, runOps_cons]
    have h1 : applyOp s (StoreOp.arrive t b) = { s with alertMemory := b :: s.alertMemory } := by
      show upsert t b s = _
      exact upsert_emptyKey t b hb s (by omega)
    rw [h1, ih { s with alertMemory := b :: s.alertMemory } (by simp; omega)]
    simp [List.replicate_succ']

theorem runOps_c3Ops : runOps c3Ops store0 = c3Store := by
  unfold c3Ops c3Store
  rw [runOps_cons]
  have h1 : applyOp store0 (StoreOp.arrive 1 cexKeyed)
      = { alertMemory := [cexKeyed], dedupeKeys := ["kold"],
          alertDedupeMap := [("kold", cexKeyed)] } := by decide
  rw [h1, runOps_replicate_emptyKey 9999 2 cexNoKey rfl _ (by simp [MAX_ALERTS])]

/-- **C3 counterexample.** On the concrete sequence of 10000 upserts
`c3Ops` followed by one more empty-key upsert, eviction removes
`cexKeyed` — the oldest entry, whose dedupe key `kold` is still actively
registered in the key set — while the entry `cexNoKey`, which has no
dedupe reference at all, remains retained.  This refutes "the evicted
entry is always the oldest by insertion order among entries without an
active dedupe reference": the evicted entry is simply the oldest entry,
dedupe references notwithstanding. -/
theorem capacity_eviction_counterexample :
    evictedOf cexNoKey (runOps c3Ops store0) = some cexKeyed
    ∧ cexKeyed.dedupeKey ≠ ""
    ∧ cexKeyed.dedupeKey ∈ (runOps c3Ops store0).dedupeKeys
    ∧ cexNoKey ∈ (runOps c3Ops store0).alertMemory
    ∧ cexNoKey.dedupeKey = ""
    ∧ cexKeyed ∉ (upsert 3 cexNoKey (runOps c3Ops store0)).alertMemory := by
  have hlen10001 : (cexNoKey :: c3Store.alertMemory).length > MAX_ALERTS := by
    show (cexNoKey :: (List.replicate 9999 cexNoKey ++ [cexKeyed])).length > MAX_ALERTS
    simp only [List.length_cons, List.length_append, List.length_replicate, MAX_ALERTS]
    omega
  have hgl : (cexNoKey :: c3Store.alertMemory).getLast? = some cexKeyed := by
    show (cexNoKey :: (List.replicate 9999 cexNoKey ++ [cexKeyed])).getLast? = some cexKeyed
    rw [← List.cons_append, List.getLast?_concat]
  refine ⟨?_, by decide, ?_, ?_, by decide, ?_⟩
  · rw [runOps_c3Ops]
    unfold evictedOf
    rw [if_pos hlen10001]
    exact hgl
  · rw [runOps_c3Ops]
    decide
  · rw [runOps_c3Ops]
    show cexNoKey ∈ List.replicate 9999 cexNoKey ++ [cexKeyed]
    refine List.mem_append.mpr (Or.inl ?_)
    exact List.mem_replicate.mpr ⟨by omega, rfl⟩
  · rw [runOps_c3Ops, upsert_emptyKey_toAdd 3 cexNoKey rfl c3Store]
    rw [addNewAlert_evict cexNoKey c3Store cexKeyed hlen10001 hgl]
    rw [if_pos (by decide)]
    show cexKeyed ∉ (cexNoKey :: (List.replicate 9999 cexNoKey ++ [cexKeyed])).dropLast
    rw [← List.cons_append, List.dropLast_concat]
    intro hmem
    rcases List.mem_cons.mp hmem with heq | hmem2
    · exact absurd heq (by decide)
    · rcases List.eq_of_mem_replicate hmem2 with heq
      exact absurd heq (by decide)

theorem normalizeAlert_noKey (t : Nat) :
    normalizeAlert t (JValue.jobj []) = Except.ok (noKeyAlert t) := rfl

theorem synthKey_ne_empty (t : Nat) : synthKey t ≠ "" := by
  unfold synthKey
  intro h
  have : ("webhook-" ++ Nat.repr t).data = "".data := by rw [h]
  simp [String.data_append] at this

/-! ## Claim C6: a parseable payload that defeats the 2xx contract -/

/-- **C6.** A JSON-parseable body whose `severity` field is a number makes
the route throw (`extractField` returns the number, `.toLowerCase()` is
not a function) and answer 500, while a body without any severity field
normalizes via the default and is acknowledged with 200. -/
theorem webhook_status_bug :
    webhookStatus (JValue.jobj [("severity", JValue.jnum 5)]) = 500
    ∧ normalizeSeverity (JValue.jobj [("severity", JValue.jnum 5)])
        = Except.error "TypeError: toLowerCase is not a function"
    ∧ webhookStatus (JValue.jobj []) = 200
    ∧ webhookStatus (JValue.jobj [("title", JValue.jarr []), ("vm", JValue.jnull)]) = 200 :=
  ⟨rfl, rfl, rfl, rfl⟩

/-! ## Claim C4: arrivals without a dedupe-key field -/

theorem upsert_freshKey (t : Nat) (a : Alert) (s : Store)
    (hk : a.dedupeKey ≠ "") (hnm : a.dedupeKey ∉ s.dedupeKeys)
    (hlen : s.alertMemory.length + 1 ≤ MAX_ALERTS) :
    (upsert t a s).alertMemory = a :: s.alertMemory
    ∧ (upsert t a s).dedupeKeys = a.dedupeKey :: s.dedupeKeys := by
  have hcond : ¬(a.dedupeKey ≠ "" ∧ isDuplicateAlert a.dedupeKey s = true) := by
    intro hc
    exact hnm (by simpa [isDuplicateAlert] using hc.2)
  unfold upsert handleAlert
  rw [if_neg hcond]
  unfold addNewAlert
  rw [if_neg (by simp only [List.length_cons]; omega)]
  constructor
  · rfl
  · show (if a.dedupeKey ≠ "" then s.dedupeKeys.insert a.dedupeKey else s.dedupeKeys)
        = a.dedupeKey :: s.dedupeKeys
    rw [if_pos hk, List.insert_of_not_mem hnm]

theorem runOps_freshKeys (ps : List (Nat × Alert)) :
    ∀ s : Store,
    (∀ p ∈ ps, p.2.dedupeKey ≠ "") →
    (ps.map (fun p => p.2.dedupeKey)).Nodup →
    (∀ p ∈ ps, p.2.dedupeKey ∉ s.dedupeKeys) →
    s.alertMemory.length + ps.length ≤ MAX_ALERTS →
    (runOps (ps.map (fun p => StoreOp.arrive p.1 p.2)) s).alertMemory.length
        = s.alertMemory.length + ps.length
    ∧ ∀ k, k ∈ (runOps (ps.map (fun p => StoreOp.arrive p.1 p.2)) s).dedupeKeys
        ↔ k ∈ s.dedupeKeys ∨ k ∈ ps.map (fun p => p.2.dedupeKey) := by
  induction ps with
  | nil => intro s _ _ _ _; simp [runOps]
  | cons p rest ih =>
    intro s hne hnodup hfresh hlen
    have hk : p.2.dedupeKey ≠ "" := hne p (List.mem_cons_self _ _)
    have hnm : p.2.dedupeKey ∉ s.dedupeKeys := hfresh p (List.mem_cons_self _ _)
    have hstep := upsert_freshKey p.1 p.2 s hk hnm
      (by simp only [List.length_cons] at hlen; omega)
    have hmemkeys : ∀ q ∈ rest, q.2.dedupeKey ∉ (upsert p.1 p.2 s).dedupeKeys := by
      intro q hq hmem
      rw [hstep.2] at hmem
      rcases List.mem_cons.mp hmem with heq | hmem2
      · have hhead : p.2.dedupeKey ∉ rest.map (fun r => r.2.dedupeKey) := by
          have := hnodup
          rw [List.map_cons, List.nodup_cons] at this
          exact this.1
        exact hhead (heq ▸ List.mem_map.mpr ⟨q, hq, rfl⟩)
      · exact hfresh q (List.mem_cons_of_mem _ hq) hmem2
    have htail := ih (upsert p.1 p.2 s)
      (fun q hq => hne q (List.mem_cons_of_mem _ hq))
      (by rw [List.map_cons, List.nodup_cons] at hnodup; exact hnodup.2)
      hmemkeys
      (by rw [hstep.1]; simp only [List.length_cons] at hlen ⊢; omega)
    rw [List.map_cons, runOps_cons]
    constructor
    · show (runOps _ (upsert p.1 p.2 s)).alertMemory.length = _
      rw [htail.1, hstep.1]
      simp only [List.length_cons]
      omega
    · intro k
      show k ∈ (runOps _ (upsert p.1 p.2 s)).dedupeKeys ↔ _
      rw [htail.2 k, hstep.2]
      simp only [List.map_cons, List.mem_cons]
      tauto

/-- **C4 (amended).** Webhook arrivals whose payloads carry no dedupe-key
field get the synthesized key `webhook-<arrival ms>`; provided those
synthesized keys are pairwise distinct (i.e. arrivals land on distinct
milliseconds) and the run fits under the capacity ceiling, the N arrivals
are never merged: the store retains exactly N distinct alerts. -/
theorem no_dedupe_key_distinct_amended (ts : List Nat)
    (hnodup : (ts.map synthKey).Nodup)
    (hlen : ts.length ≤ MAX_ALERTS) :
    (runOps (ts.map (fun t => StoreOp.arrive t (noKeyAlert t))) store0).alertMemory.length
        = ts.length
    ∧ ∀ t ∈ ts, normalizeAlert t (JValue.jobj []) = Except.ok (noKeyAlert t) := by
  have h := runOps_freshKeys (ts.map (fun t => (t, noKeyAlert t))) store0
    (by
      intro p hp
      rcases List.mem_map.mp hp with ⟨t, _, rfl⟩
      exact synthKey_ne_empty t)
    (by
      have : (ts.map (fun t => (t, noKeyAlert t))).map (fun p => p.2.dedupeKey)
          = ts.map synthKey := by
        rw [List.map_map]
        rfl
      rw [this]
      exact hnodup)
    (by intro p _ hmem; simp [store0] at hmem)
    (by simpa [store0] using hlen)
  have hops : (ts.map (fun t => (t, noKeyAlert t))).map
      (fun p => StoreOp.arrive p.1 p.2) = ts.map (fun t => StoreOp.arrive t (noKeyAlert t)) := by
    rw [List.map_map]
    rfl
  rw [hops] at h
  refine ⟨?_, fun t _ => normalizeAlert_noKey t⟩
  rw [h.1]
  simp [store0]

/-- Witness for C4 (amended): three no-dedupe-key arrivals at distinct
milliseconds yield three stored alerts. -/
theorem no_dedupe_key_distinct_amended_witness :
    (runOps ([5, 6, 7].map (fun t => StoreOp.arrive t (noKeyAlert t))) store0).alertMemory.length
        = 3
    ∧ normalizeAlert 5 (JValue.jobj []) = Except.ok (noKeyAlert 5) :=
  ⟨(no_dedupe_key_distinct_amended [5, 6, 7] (by decide) (by decide)).1,
    (no_dedupe_key_distinct_amended [5, 6, 7] (by decide) (by decide)).2 5 (by decide)⟩

/-- **C4 counterexample.** Two arrivals without a dedupe-key field in the
*same* millisecond (arrival time 7) synthesize the same key `webhook-7`;
the second arrival is treated as a duplicate and merged into the first,
so two such arrivals leave one stored alert, not two — "regardless of
arrival timing" fails. -/
theorem no_dedupe_key_counterexample :
    (runOps [StoreOp.arrive 7 (noKeyAlert 7), StoreOp.arrive 7 (noKeyAlert 7)]
        store0).alertMemory.length = 1
    ∧ (runOps [StoreOp.arrive 7 (noKeyAlert 7), StoreOp.arrive 7 (noKeyAlert 7)]
        store0).alertMemory.length ≠ 2
    ∧ normalizeAlert 7 (JValue.jobj []) = Except.ok (noKeyAlert 7) :=
  ⟨by decide, by decide, rfl⟩

/-! ## Claim C5: the field extractor -/

/-- **C5.** `extractField(obj, candidateKeys, default)` returns the value
of the first key in `candidateKeys` present on `obj` with a non-null,
non-undefined, non-empty-string value, and the default otherwise (a total
function — no error conditions); in particular the three spec examples. -/
theorem extractField_first_kept :
    (∀ (obj : JValue) (possibleNames : List String) (defaultValue : JValue),
      extractField obj possibleNames defaultValue =
        match possibleNames.find? (fun n => keptAt obj n) with
        | some n => propOr obj n defaultValue
        | none => defaultValue)
    ∧ extractField (.jobj []) ["a", "b", "c"] (.jstr "X") = .jstr "X"
    ∧ extractField (.jobj [("b", .jstr "val")]) ["a", "b", "c"] (.jstr "X") = .jstr "val"
    ∧ extractField (.jobj [("a", .jstr "")]) ["a", "b"] (.jstr "X") = .jstr "X" :=
  ⟨extractField_eq_find, rfl, rfl, rfl⟩

/-- **C8.** With an empty source-filter list, `processAlerts` returns the
empty list, whatever the three input alert lists and the remaining filter
fields are. -/
theorem processAlerts_empty_source (graylogAlerts : List GraylogAlert)
    (ociAlerts : List OCIAlert) (heartbeatAlerts : List HeartbeatAlert)
    (filters : AlertFilters) (h : filters.source = []) :
    processAlerts graylogAlerts ociAlerts heartbeatAlerts filters = [] := by
  unfold processAlerts
  rw [h]
  rfl

/-- Witness for C8: non-empty alert lists and an empty source filter
still produce the empty result. -/
theorem processAlerts_empty_source_witness :
    processAlerts [sampleGraylog] [sampleOCI] [sampleHeartbeat]
      { severity := ["Critical"], source := [], channel := [], timeRange := "24h",
        searchText := "", dynamicFilter := "ALL", region := none, resourceType := none }
      = [] :=
  processAlerts_empty_source [sampleGraylog] [sampleOCI] [sampleHeartbeat] _ rfl

theorem length_filterMap_eq_count {α β : Type} (f : α → Option β) (l : List α) :
    (l.filterMap f).length = (l.filter (fun x => (f x).isSome)).length := by
  induction l with
  | nil => rfl
  | cons x xs ih =>
    cases hf : f x <;> simp [List.filterMap_cons, List.filter_cons, hf, ih]

theorem serviceAlert_isSome (system : HeartbeatSystem) (service : HBService) :
    (serviceAlert system service).isSome = (statusOf system service != HBStatus.DOTS) := by
  cases hs : statusOf system service <;> simp [serviceAlert, hs]

/-- **C9 (amended).** The heartbeat interpreter emits exactly one record
per (system, service) pair whose status is known — not the `'...'`
placeholder — and the emitted severities/messages are: RED → `critical`,
`<service> service is down on <site>`; ORANGE → `medium`,
`<service> service has warnings on <site>`; GREEN → `info`,
`<site> system is operational` for STANDALONE sites and
`<service> service on <site> is operational` otherwise. -/
theorem heartbeat_rules_amended :
    (∀ system : HeartbeatSystem,
      (convertToAlerts [system]).length
        = (hbServices.filter (fun svc => statusOf system svc != HBStatus.DOTS)).length)
    ∧ (∀ (system : HeartbeatSystem) (rest : List HeartbeatSystem),
        convertToAlerts (system :: rest) = convertToAlerts [system] ++ convertToAlerts rest)
    ∧ (∀ (systems : List HeartbeatSystem) (a : HeartbeatAlert), a ∈ convertToAlerts systems →
        (a.status = HBStatus.RED → a.severity = "critical"
          ∧ a.message = a.service ++ " service is down on " ++ a.siteName)
        ∧ (a.status = HBStatus.ORANGE → a.severity = "medium"
          ∧ a.message = a.service ++ " service has warnings on " ++ a.siteName)
        ∧ (a.status = HBStatus.GREEN → a.severity = "info"
          ∧ a.message = (if a.siteType = SiteType.STANDALONE
              then a.siteName ++ " system is operational"
              else a.service ++ " service on " ++ a.siteName ++ " is operational"))) := by
  refine ⟨?_, ?_, ?_⟩
  · intro system
    have h1 : convertToAlerts [system] = hbServices.filterMap (serviceAlert system) := by
      simp [convertToAlerts]
    rw [h1, length_filterMap_eq_count]
    have h2 : hbServices.filter (fun svc => (serviceAlert system svc).isSome)
        = hbServices.filter (fun svc => statusOf system svc != HBStatus.DOTS) :=
      List.filter_congr (fun svc _ => serviceAlert_isSome system svc)
    rw [h2]
  · intro system rest
    simp [convertToAlerts]
  · intro systems a ha
    simp only [convertToAlerts, List.mem_flatMap] at ha
    obtain ⟨sys, _, ha2⟩ := ha
    obtain ⟨svc, _, heq⟩ := List.mem_filterMap.mp ha2
    unfold serviceAlert at heq
    cases hs : statusOf sys svc <;> rw [hs] at heq
    · rw [Option.some.injEq] at heq
      subst heq
      exact ⟨fun h => HBStatus.noConfusion h, fun h => HBStatus.noConfusion h,
        fun _ => ⟨rfl, rfl⟩⟩
    · rw [Option.some.injEq] at heq
      subst heq
      exact ⟨fun _ => ⟨rfl, rfl⟩, fun h => HBStatus.noConfusion h,
        fun h => HBStatus.noConfusion h⟩
    · rw [Option.some.injEq] at heq
      subst heq
      exact ⟨fun h => HBStatus.noConfusion h, fun _ => ⟨rfl, rfl⟩,
        fun h => HBStatus.noConfusion h⟩
    · exact absurd heq (by simp)

/-- Witness for C9 (amended), instantiating the spec scenario: a
STANDALONE system named `Test` with `WEB` RED yields exactly one record,
with severity `critical` and a message containing `down on Test`. -/
theorem heartbeat_rules_amended_witness :
    (convertToAlerts [c9RedSystem]).length
      = (hbServices.filter (fun svc => statusOf c9RedSystem svc != HBStatus.DOTS)).length
    ∧ convertToAlerts [c9RedSystem] = [c9RedRecord]
    ∧ c9RedRecord.severity = "critical"
    ∧ c9RedRecord.message = c9RedRecord.service ++ " service is down on "
        ++ c9RedRecord.siteName
    ∧ ∃ p q, c9RedRecord.message = p ++ "down on Test" ++ q :=
  ⟨heartbeat_rules_amended.1 c9RedSystem, by decide,
    ((heartbeat_rules_amended.2.2 [c9RedSystem] c9RedRecord (by decide)).1 rfl).1,
    ((heartbeat_rules_amended.2.2 [c9RedSystem] c9RedRecord (by decide)).1 rfl).2,
    ⟨"WEB service is ", "", by decide⟩⟩

/-- **C9 counterexample.** The code's messages differ from the claim's
templates: an ORANGE service yields `WEB service has warnings on Test`,
not `WEB has warnings on Test`, and a GREEN STANDALONE system yields
`Test system is operational`, not `Test operational`. -/
theorem heartbeat_rules_counterexample :
    (convertToAlerts [c9OrangeSystem]).map HeartbeatAlert.message
      = ["WEB service has warnings on Test"]
    ∧ "WEB service has warnings on Test" ≠ "WEB has warnings on Test"
    ∧ (convertToAlerts [c9GreenSystem]).map HeartbeatAlert.message
      = ["Test system is operational"]
    ∧ "Test system is operational" ≠ "Test operational" :=
  ⟨by decide, by decide, by decide, by decide⟩

end UnifiedAlertDashboard
